import Mathlib

/-!
Shallow embedding of the HTTP client pool of this repository.

Source files embedded:
- `src/utils/proxy_config.py` : environment-backed SOCKS5 proxy resolution
  (`get_socks5_proxy_url`, `get_http_proxy_for_trust_env`).
- `src/services/core.py` : `HTTPClientPool` (`_check_loop_change`, `get_client`,
  `close_all`) and `BaseAPIService.handle_error`.

Modelling conventions:
- Python `float` timeout values are only constructed and passed through (no
  floating-point arithmetic is performed anywhere in the source), so they are
  modelled by `ℚ`.
- The process environment (`os.getenv`) is an explicit `Env` record; an unset
  variable is `none` (Python's `os.getenv(name, '')` default is applied in the
  embedding exactly where the source applies it).
- `httpx.AsyncClient` instances are opaque handles; identity (`id(obj)` /
  object identity) is modelled by a fresh natural number drawn from a counter
  in the pool state, so two distinct creation events yield distinct handles.
- Ambient runtime facts (`asyncio.get_running_loop`, `_SOCKS_AVAILABLE`,
  `_PROXY_CONFIG_AVAILABLE`, whether `AsyncProxyTransport.from_url` raises)
  are fields of a `World` record.
- `logging.warning` calls are modelled by an emitted list of `LogMsg` values.
- Python exceptions are modelled with `Except`: `try/except` becomes a match
  on the `Except` value; code with no handler propagates the `error` case.
-/

/-- Python `str.lower()` (the configuration values here are ASCII), written
structurally over the character list so that the kernel can evaluate it. -/
def toLowerStr (s : String) : String := String.mk (s.data.map Char.toLower)

/-- Python `str.strip()`: drop leading and trailing whitespace. -/
def trimStr (s : String) : String :=
  String.mk (((s.data.dropWhile Char.isWhitespace).reverse.dropWhile
    Char.isWhitespace).reverse)

/-- Is the first list a prefix of the second? -/
def isPrefixChars : List Char → List Char → Bool
  | [], _ => true
  | _ :: _, [] => false
  | p :: ps, c :: cs => p == c && isPrefixChars ps cs

/-- Python `s.startswith(pat)`. -/
def strStartsWith (s pat : String) : Bool := isPrefixChars pat.data s.data

/-- Is the string empty (Python falsiness of a string)? -/
def strIsEmpty (s : String) : Bool := s.data.isEmpty

/-- Environment variables read by `src/utils/proxy_config.py`.
`none` models an unset variable. -/
structure Env where
  proxy_enabled : Option String
  socks5_proxy_url : Option String
deriving DecidableEq

/-- Embedding of `get_socks5_proxy_url` (src/utils/proxy_config.py lines 27-53).
`os.getenv('PROXY_ENABLED', '').lower()` and
`os.getenv('SOCKS5_PROXY_URL', '').strip()` followed by the cascade of
early returns; the final line is `return proxy_url if proxy_url else None`.
`_load_env_file()` only populates the environment, which is the `env`
argument here. -/
def get_socks5_proxy_url (env : Env) : Option String :=
  let proxy_enabled := toLowerStr (env.proxy_enabled.getD "")
  let proxy_url := trimStr (env.socks5_proxy_url.getD "")
  if proxy_enabled = "false" then none
  else if proxy_enabled = "true" && strIsEmpty proxy_url then none
  else if strIsEmpty proxy_enabled && strIsEmpty proxy_url then none
  else if strIsEmpty proxy_url then none
  else some proxy_url

/-- Embedding of `get_http_proxy_for_trust_env`
(src/utils/proxy_config.py lines 94-110): resolves the proxy URL and then
returns `None` on both branches (the comment in the source explains that
httpx's `trust_env` cannot carry a SOCKS5 proxy). -/
def get_http_proxy_for_trust_env (env : Env) : Option (List (String × String)) :=
  match get_socks5_proxy_url env with
  | none => none
  | some _ => none

/-- The four timeout slots of `httpx.Timeout`.  The source constructs
`httpx.Timeout(timeout, connect=10.0, read=timeout, write=60.0)`: the
positional argument is the default for every slot not named, so the pool
slot receives `timeout`. -/
structure HttpxTimeout where
  pool : ℚ
  connect : ℚ
  read : ℚ
  write : ℚ
deriving DecidableEq

/-- The `httpx.Limits` record constructed by `get_client`. -/
structure HttpxLimits where
  max_keepalive_connections : ℕ
  max_connections : ℕ
  keepalive_expiry : ℚ
deriving DecidableEq

/-- The `client_kwargs` dictionary passed to `httpx.AsyncClient(**client_kwargs)`.
`transport` holds the URL a SOCKS transport was built from; `proxies` holds a
plain httpx proxy URL; both start absent. -/
structure ClientKwargs where
  timeout : HttpxTimeout
  verify : Bool
  follow_redirects : Bool
  http2 : Bool
  trust_env : Bool
  limits : HttpxLimits
  transport : Option String
  proxies : Option String
deriving DecidableEq

/-- The `**kwargs` of `get_client`: per-key overrides applied by
`client_kwargs.update(kwargs)`.  A `some` field overwrites the corresponding
`client_kwargs` entry, a `none` field leaves it alone. -/
structure ExtraOptions where
  timeout : Option HttpxTimeout := none
  verify : Option Bool := none
  follow_redirects : Option Bool := none
  http2 : Option Bool := none
  trust_env : Option Bool := none
  limits : Option HttpxLimits := none
  transport : Option (Option String) := none
  proxies : Option (Option String) := none
deriving DecidableEq

/-- `client_kwargs.update(kwargs)`. -/
def updateKwargs (k : ClientKwargs) (e : ExtraOptions) : ClientKwargs :=
  { timeout := e.timeout.getD k.timeout
    verify := e.verify.getD k.verify
    follow_redirects := e.follow_redirects.getD k.follow_redirects
    http2 := e.http2.getD k.http2
    trust_env := e.trust_env.getD k.trust_env
    limits := e.limits.getD k.limits
    transport := e.transport.getD k.transport
    proxies := e.proxies.getD k.proxies }

/-- An `httpx.AsyncClient` handle: its object identity and the keyword
arguments it was constructed with.  `is_closed` mirrors `client.is_closed`. -/
structure Client where
  id : ℕ
  kwargs : ClientKwargs
  is_closed : Bool
deriving DecidableEq

/-- The class-level state of `HTTPClientPool`: the `_clients` dict (an
association list with unique keys), the recorded `_loop_id`, and a counter
supplying fresh object identities for newly constructed clients. -/
structure PoolState where
  clients : List (String × Client)
  loop_id : Option ℕ
  next_id : ℕ
deriving DecidableEq

/-- Ambient runtime facts `get_client` consults:
`running_loop` is `id(asyncio.get_running_loop())`, or `none` when
`get_running_loop` raises `RuntimeError`; `socks_available` is
`_SOCKS_AVAILABLE`; `proxy_config_available` is `_PROXY_CONFIG_AVAILABLE`;
`env` backs `get_socks5_proxy_url`; `socks_build_fails u` says whether
`AsyncProxyTransport.from_url(u)` raises. -/
structure World where
  running_loop : Option ℕ
  socks_available : Bool
  proxy_config_available : Bool
  env : Env
  socks_build_fails : String → Bool

/-- The `logging.warning` messages `get_client` can emit. -/
inductive LogMsg where
  | socksConfigFailed (url : String)
  | socksUnavailable (url : String)
  | socksInstallHint
  | explicitHttpOverride (explicit resolved : String)
deriving DecidableEq

/-- Python truthiness of an optional string: `None` and `''` are falsy. -/
def truthy : Option String → Bool
  | none => false
  | some s => !strIsEmpty s

/-- `proxy_url.startswith(('socks5://', 'socks5h://', 'socks4://', 'socks4h://'))`. -/
def isSocksUrl (u : String) : Bool :=
  strStartsWith u "socks5://" || strStartsWith u "socks5h://" ||
    strStartsWith u "socks4://" || strStartsWith u "socks4h://"

/-- `proxy_url.startswith(('http://', 'https://'))`. -/
def isHttpUrl (u : String) : Bool :=
  strStartsWith u "http://" || strStartsWith u "https://"

/-- `cache_key = base_url or provider` (Python `or`: an empty or absent
`base_url` falls back to `provider`). -/
def cacheKey (base_url : Option String) (provider : String) : String :=
  match base_url with
  | none => provider
  | some b => if strIsEmpty b then provider else b

/-- Embedding of `HTTPClientPool._check_loop_change`
(src/services/core.py lines 33-58).  Returns the updated pool state and the
boolean the method returns.  `asyncio.get_running_loop()` raising
`RuntimeError` is the `none` branch. -/
def check_loop_change (w : World) (s : PoolState) : PoolState × Bool :=
  match w.running_loop with
  | none => (s, false)
  | some current_loop_id =>
    match s.loop_id with
    | none => ({ s with loop_id := some current_loop_id }, false)
    | some lid =>
      if lid = current_loop_id then (s, false)
      else ({ s with loop_id := some current_loop_id, clients := [] }, true)

/-- The arguments of `get_client`, with the source's default values. -/
structure GetClientArgs where
  provider : String
  base_url : Option String := none
  timeout : ℚ := 60
  proxy : Option String := none
  verify_ssl : Bool := true
  kwargs : ExtraOptions := {}

/-- The initial `client_kwargs` dict literal built by `get_client`
(src/services/core.py lines 92-102). -/
def baseClientKwargs (timeout : ℚ) (verify_ssl : Bool) : ClientKwargs :=
  { timeout := { pool := timeout, connect := 10, read := timeout, write := 60 }
    verify := verify_ssl
    follow_redirects := true
    http2 := false
    trust_env := false
    limits := { max_keepalive_connections := 10, max_connections := 20,
                keepalive_expiry := 60 }
    transport := none
    proxies := none }

/-- `proxy_url = proxy; if not proxy_url and _PROXY_CONFIG_AVAILABLE:
proxy_url = get_socks5_proxy_url()` (src/services/core.py lines 104-107). -/
def effective_proxy_url (w : World) (a : GetClientArgs) : Option String :=
  if truthy a.proxy then a.proxy
  else if w.proxy_config_available then get_socks5_proxy_url w.env
  else a.proxy

/-- The SOCKS / plain-proxy configuration block
(src/services/core.py lines 110-127): `if proxy_url and _SOCKS_AVAILABLE`
either builds a SOCKS transport (catching construction failures) or stores
the URL under `proxies`; `elif proxy_url and not _SOCKS_AVAILABLE` only logs. -/
def applySocksConfig (w : World) (proxy_url : Option String) (k : ClientKwargs) :
    ClientKwargs × List LogMsg :=
  if truthy proxy_url && w.socks_available then
    let u := proxy_url.getD ""
    if isSocksUrl u then
      if w.socks_build_fails u then (k, [LogMsg.socksConfigFailed u])
      else ({ k with transport := some u }, [])
    else ({ k with proxies := some u }, [])
  else if truthy proxy_url && !w.socks_available then
    (k, [LogMsg.socksUnavailable (proxy_url.getD ""), LogMsg.socksInstallHint])
  else (k, [])

/-- The explicit-HTTP-proxy override block (src/services/core.py lines
129-133): `if proxy and proxy_url and proxy_url.startswith(('http://',
'https://'))` logs a warning and sets `proxies` to the explicit argument. -/
def applyExplicitHttpOverride (proxy proxy_url : Option String)
    (k : ClientKwargs) : ClientKwargs × List LogMsg :=
  if truthy proxy && truthy proxy_url && isHttpUrl (proxy_url.getD "") then
    ({ k with proxies := proxy },
      [LogMsg.explicitHttpOverride (proxy.getD "") (proxy_url.getD "")])
  else (k, [])

/-- `cls._clients[cache_key] = client`: dict insertion, replacing an
existing entry for the key. -/
def insertClient : List (String × Client) → String → Client →
    List (String × Client)
  | [], key, c => [(key, c)]
  | (k, v) :: rest, key, c =>
    if k == key then (key, c) :: rest else (k, v) :: insertClient rest key c

/-- The client-construction tail of `get_client` (src/services/core.py
lines 91-140): build `client_kwargs`, resolve the proxy, configure it,
apply `kwargs`, construct the client and cache it under `cache_key`. -/
def build_client (w : World) (s : PoolState) (a : GetClientArgs) :
    PoolState × Client × List LogMsg :=
  let key := cacheKey a.base_url a.provider
  let proxy_url := effective_proxy_url w a
  let r1 := applySocksConfig w proxy_url (baseClientKwargs a.timeout a.verify_ssl)
  let r2 := applyExplicitHttpOverride a.proxy proxy_url r1.1
  let c : Client :=
    { id := s.next_id, kwargs := updateKwargs r2.1 a.kwargs, is_closed := false }
  ({ s with clients := insertClient s.clients key c, next_id := s.next_id + 1 },
    c, r1.2 ++ r2.2)

/-- Embedding of `HTTPClientPool.get_client` (src/services/core.py lines
60-140): run `_check_loop_change`, look the cache key up, return the cached
client when it is present and open, otherwise build and cache a new one.
Returns the final pool state, the returned client, and the emitted warnings. -/
def get_client (w : World) (s : PoolState) (a : GetClientArgs) :
    PoolState × Client × List LogMsg :=
  let s1 := (check_loop_change w s).1
  match s1.clients.lookup (cacheKey a.base_url a.provider) with
  | some c => if c.is_closed then build_client w s1 a else (s1, c, [])
  | none => build_client w s1 a

/-- `await client.aclose()` wrapped in the source's `try: ... except: pass`:
whatever the close does, the exception is swallowed. -/
def try_close (close_fails : Client → Bool) (c : Client) : Except String Unit :=
  match (if close_fails c then Except.error "close failed" else Except.ok ()) with
  | Except.ok _ => Except.ok ()
  | Except.error _ => Except.ok ()

/-- The loop body of `close_all`: pop every key in turn and attempt the
guarded close. -/
def close_list (close_fails : Client → Bool) :
    List (String × Client) → Except String Unit
  | [] => Except.ok ()
  | (_, c) :: rest => do
    let _ ← try_close close_fails c
    close_list close_fails rest

/-- Embedding of `HTTPClientPool.close_all` (src/services/core.py lines
143-151): iterate over a snapshot of the keys, pop each entry and attempt a
guarded `aclose`; every entry is popped, so the dict ends empty.
`close_fails c` says whether `aclose` raises on handle `c`; an uncaught
exception would surface as `Except.error`. -/
def close_all (close_fails : Client → Bool) (s : PoolState) :
    Except String PoolState :=
  (close_list close_fails s.clients).map (fun _ => { s with clients := [] })

/-- The uniform error-response shape of `BaseAPIService.handle_error`. -/
structure ErrorResponse where
  success : Bool
  error : String
deriving DecidableEq

/-- Embedding of `BaseAPIService.handle_error` (src/services/core.py lines
182-198).  `format_api_error` is the external collaborator from
`..utils.common` (not under src/), passed in as a fallible function; the
source calls it with no surrounding `try/except`, so a formatter failure
propagates out of `handle_error`. -/
def handle_error {α : Type} (format_api_error : α → String → Except String String)
    (error : α) (provider : String) : Except String ErrorResponse :=
  match format_api_error error provider with
  | Except.ok msg => Except.ok { success := false, error := msg }
  | Except.error e => Except.error e

/-- Did the execution context stay the same since the pool last recorded it?
True when no loop is running or none was recorded yet (the conservative
branches of `_check_loop_change`). -/
def loopUnchanged (w : World) (s : PoolState) : Bool :=
  match w.running_loop, s.loop_id with
  | some cur, some lid => lid == cur
  | _, _ => true

/-- A transport library whose `AsyncProxyTransport.from_url` never raises. -/
def noSocksBuildFailure : String → Bool := fun _ => false

/-- An environment with neither proxy variable set. -/
def exEnv : Env := { proxy_enabled := none, socks5_proxy_url := none }

/-- A concrete runtime: event loop `1` running, SOCKS transports and the
proxy-config module importable, empty environment. -/
def exWorld : World :=
  { running_loop := some 1, socks_available := true,
    proxy_config_available := true, env := exEnv,
    socks_build_fails := noSocksBuildFailure }

/-- A concrete open client handle with identity `0`. -/
def exClient : Client :=
  { id := 0, kwargs := baseClientKwargs 60 true, is_closed := false }

/-- A pool holding `exClient` under key `"k"`, created under loop `1`. -/
def exPool : PoolState :=
  { clients := [("k", exClient)], loop_id := some 1, next_id := 1 }

/-- A pool that has never created a client. -/
def emptyPool : PoolState := { clients := [], loop_id := none, next_id := 0 }

/-- A plain `get_client` call for provider `"k"` with all defaults. -/
def exArgs : GetClientArgs := { provider := "k" }

/-- An error formatter that itself fails on every input. -/
def failingFormatter : ℕ → String → Except String String :=
  fun _ _ => Except.error "formatter blew up"

/-- An error formatter that always succeeds. -/
def okFormatter : ℕ → String → Except String String :=
  fun _ _ => Except.ok "formatted message"

/-- An environment whose resolver yields the plain proxy `http://b`. -/
def envWithHttpProxy : Env :=
  { proxy_enabled := none, socks5_proxy_url := some "http://b" }

/-- `exWorld` with `httpx-socks` missing and `http://b` resolved from the
environment. -/
def c4NoSocksWorld : World :=
  { exWorld with socks_available := false, env := envWithHttpProxy }

/-- `exWorld` with `httpx-socks` present and `http://b` resolved from the
environment. -/
def c4SocksWorld : World := { exWorld with env := envWithHttpProxy }

/-- A call passing `timeout=30`. -/
def c3Args : GetClientArgs := { provider := "k", timeout := 30 }

/-- A call passing an explicit plain HTTP proxy. -/
def c5ProxyArgs : GetClientArgs := { provider := "k", proxy := some "http://a" }

/-- A call overriding `trust_env` through `**kwargs`. -/
def c9Args : GetClientArgs :=
  { provider := "k", kwargs := { trust_env := some true } }

/-- Dict insertion then lookup of the same key finds the new client. -/
lemma lookup_insertClient_self (l : List (String × Client)) (key : String)
    (c : Client) : (insertClient l key c).lookup key = some c := by
  induction l with
  | nil => simp [insertClient, List.lookup]
  | cons p rest ih =>
    obtain ⟨k, v⟩ := p
    by_cases h : k = key
    · simp [insertClient, h, List.lookup]
    · have hk : (k == key) = false := beq_eq_false_iff_ne.mpr h
      have hk' : (key == k) = false := beq_eq_false_iff_ne.mpr (Ne.symm h)
      simp [insertClient, hk, hk', List.lookup, ih]

/-- `_check_loop_change` never touches the identity counter. -/
lemma check_loop_change_next_id (w : World) (s : PoolState) :
    (check_loop_change w s).1.next_id = s.next_id := by
  unfold check_loop_change
  cases w.running_loop with
  | none => rfl
  | some cur =>
    cases s.loop_id with
    | none => rfl
    | some lid =>
      by_cases h : lid = cur <;> simp [h]

/-- With no running loop, `_check_loop_change` is a no-op returning `False`. -/
lemma check_loop_change_no_loop (w : World) (s : PoolState)
    (h : w.running_loop = none) : check_loop_change w s = (s, false) := by
  unfold check_loop_change
  rw [h]

/-- When the execution context is unchanged, `_check_loop_change` keeps the
cache intact. -/
lemma check_loop_change_clients_unchanged (w : World) (s : PoolState)
    (h : loopUnchanged w s = true) :
    (check_loop_change w s).1.clients = s.clients := by
  unfold check_loop_change
  cases hw : w.running_loop with
  | none => rfl
  | some cur =>
    cases hs : s.loop_id with
    | none => rfl
    | some lid =>
      unfold loopUnchanged at h
      rw [hw, hs] at h
      have : lid = cur := by simpa using h
      simp [this]

/-- When the execution context changed, `_check_loop_change` clears the
whole cache. -/
lemma check_loop_change_clients_changed (w : World) (s : PoolState)
    (h : loopUnchanged w s = false) :
    (check_loop_change w s).1.clients = [] := by
  unfold check_loop_change
  cases hw : w.running_loop with
  | none =>
    unfold loopUnchanged at h
    rw [hw] at h
    simp at h
  | some cur =>
    cases hs : s.loop_id with
    | none =>
      unfold loopUnchanged at h
      rw [hw, hs] at h
      simp at h
    | some lid =>
      unfold loopUnchanged at h
      rw [hw, hs] at h
      have : ¬lid = cur := by simpa using h
      simp [this]

/-- After a check, the recorded loop id matches the running loop. -/
lemma check_loop_change_loop_id (w : World) (s : PoolState) (cur : ℕ)
    (h : w.running_loop = some cur) :
    (check_loop_change w s).1.loop_id = some cur := by
  unfold check_loop_change
  rw [h]
  cases hs : s.loop_id with
  | none => rfl
  | some lid =>
    by_cases hl : lid = cur
    · subst hl
      simp [hs]
    · simp [hl]

/-- A second check against the same world, on any state whose recorded loop
id agrees with a post-check state, is a no-op. -/
lemma check_loop_change_stable (w : World) (s t : PoolState)
    (h : t.loop_id = (check_loop_change w s).1.loop_id) :
    check_loop_change w t = (t, false) := by
  cases hw : w.running_loop with
  | none => exact check_loop_change_no_loop w t hw
  | some cur =>
    have ht : t.loop_id = some cur := by
      rw [h, check_loop_change_loop_id w s cur hw]
    unfold check_loop_change
    rw [hw, ht]
    simp

/-- `build_client` leaves the recorded loop id alone. -/
lemma build_client_loop_id (w : World) (s : PoolState) (a : GetClientArgs) :
    (build_client w s a).1.loop_id = s.loop_id := rfl

/-- The freshly built client carries the next identity. -/
lemma build_client_id (w : World) (s : PoolState) (a : GetClientArgs) :
    (build_client w s a).2.1.id = s.next_id := rfl

/-- A freshly built client starts open. -/
lemma build_client_open (w : World) (s : PoolState) (a : GetClientArgs) :
    (build_client w s a).2.1.is_closed = false := rfl

/-- The freshly built client is cached under the cache key. -/
lemma build_client_lookup (w : World) (s : PoolState) (a : GetClientArgs) :
    (build_client w s a).1.clients.lookup (cacheKey a.base_url a.provider) =
      some (build_client w s a).2.1 :=
  lookup_insertClient_self s.clients (cacheKey a.base_url a.provider) _

/-- The guarded close of a single client always succeeds. -/
lemma try_close_ok (close_fails : Client → Bool) (c : Client) :
    try_close close_fails c = Except.ok () := by
  unfold try_close
  by_cases h : close_fails c <;> simp [h]

/-- The guarded per-client close loop never surfaces an exception. -/
lemma close_list_ok (close_fails : Client → Bool)
    (l : List (String × Client)) : close_list close_fails l = Except.ok () := by
  induction l with
  | nil => rfl
  | cons p rest ih =>
    obtain ⟨k, c⟩ := p
    unfold close_list
    rw [try_close_ok]
    exact ih

/-- A cache miss that survives the loop check makes `get_client` build. -/
lemma get_client_of_lookup_none (w : World) (s : PoolState) (a : GetClientArgs)
    (h : (check_loop_change w s).1.clients.lookup
      (cacheKey a.base_url a.provider) = none) :
    get_client w s a = build_client w (check_loop_change w s).1 a := by
  simp only [get_client]
  rw [h]

/-- A cache hit on an open client is returned as is, with no warnings. -/
lemma get_client_cached (w : World) (s : PoolState) (a : GetClientArgs)
    (c : Client)
    (h : (check_loop_change w s).1.clients.lookup
      (cacheKey a.base_url a.provider) = some c)
    (hopen : c.is_closed = false) :
    get_client w s a = ((check_loop_change w s).1, c, []) := by
  simp only [get_client]
  rw [h]
  simp [hopen]

/-- A cache hit on a closed client falls through to building a new one. -/
lemma get_client_of_closed (w : World) (s : PoolState) (a : GetClientArgs)
    (c : Client)
    (h : (check_loop_change w s).1.clients.lookup
      (cacheKey a.base_url a.provider) = some c)
    (hc : c.is_closed = true) :
    get_client w s a = build_client w (check_loop_change w s).1 a := by
  simp only [get_client]
  rw [h]
  simp [hc]

/-- A key absent before the loop check is still absent after it. -/
lemma check_lookup_none (w : World) (s : PoolState) (key : String)
    (h : s.clients.lookup key = none) :
    (check_loop_change w s).1.clients.lookup key = none := by
  by_cases hu : loopUnchanged w s = true
  · rw [check_loop_change_clients_unchanged w s hu]
    exact h
  · rw [check_loop_change_clients_changed w s (by simpa using hu)]
    rfl

/-- An empty `**kwargs` leaves `client_kwargs` untouched. -/
lemma updateKwargs_default (k : ClientKwargs) : updateKwargs k {} = k := rfl

/-- The SOCKS-configuration block only ever touches the `transport` and
`proxies` entries of `client_kwargs`. -/
lemma applySocksConfig_plain_fields (w : World) (pu : Option String)
    (k : ClientKwargs) :
    (applySocksConfig w pu k).1.timeout = k.timeout ∧
    (applySocksConfig w pu k).1.verify = k.verify ∧
    (applySocksConfig w pu k).1.follow_redirects = k.follow_redirects ∧
    (applySocksConfig w pu k).1.http2 = k.http2 ∧
    (applySocksConfig w pu k).1.trust_env = k.trust_env ∧
    (applySocksConfig w pu k).1.limits = k.limits := by
  refine ⟨?_, ?_, ?_, ?_, ?_, ?_⟩ <;>
    (simp only [applySocksConfig]; split_ifs <;> rfl)

/-- The explicit-HTTP-proxy override only ever touches `proxies`. -/
lemma applyExplicitHttpOverride_plain_fields (proxy pu : Option String)
    (k : ClientKwargs) :
    (applyExplicitHttpOverride proxy pu k).1.timeout = k.timeout ∧
    (applyExplicitHttpOverride proxy pu k).1.verify = k.verify ∧
    (applyExplicitHttpOverride proxy pu k).1.follow_redirects =
      k.follow_redirects ∧
    (applyExplicitHttpOverride proxy pu k).1.http2 = k.http2 ∧
    (applyExplicitHttpOverride proxy pu k).1.trust_env = k.trust_env ∧
    (applyExplicitHttpOverride proxy pu k).1.limits = k.limits ∧
    (applyExplicitHttpOverride proxy pu k).1.transport = k.transport := by
  refine ⟨?_, ?_, ?_, ?_, ?_, ?_, ?_⟩ <;>
    (simp only [applyExplicitHttpOverride]; split_ifs <;> rfl)

/-- When its guard holds, the override block rewrites `proxies` to the
explicit argument and logs the discard warning. -/
lemma applyExplicitHttpOverride_fires (proxy pu : Option String)
    (k : ClientKwargs)
    (h : (truthy proxy && truthy pu && isHttpUrl (pu.getD "")) = true) :
    applyExplicitHttpOverride proxy pu k =
      ({ k with proxies := proxy },
        [LogMsg.explicitHttpOverride (proxy.getD "") (pu.getD "")]) := by
  simp only [applyExplicitHttpOverride, h]
  rfl

/-- When its guard fails, the override block is a no-op. -/
lemma applyExplicitHttpOverride_skips (proxy pu : Option String)
    (k : ClientKwargs)
    (h : (truthy proxy && truthy pu && isHttpUrl (pu.getD "")) = false) :
    applyExplicitHttpOverride proxy pu k = (k, []) := by
  simp only [applyExplicitHttpOverride, h]
  rfl

/-- SOCKS support absent with an effective proxy present: warn twice and
configure nothing. -/
lemma applySocksConfig_unavailable (w : World) (pu : Option String)
    (k : ClientKwargs) (ht : truthy pu = true)
    (hs : w.socks_available = false) :
    applySocksConfig w pu k =
      (k, [LogMsg.socksUnavailable (pu.getD ""), LogMsg.socksInstallHint]) := by
  simp [applySocksConfig, ht, hs]

/-- SOCKS support present with a non-SOCKS effective proxy: store the URL
under `proxies`. -/
lemma applySocksConfig_plain_proxy (w : World) (pu : Option String)
    (k : ClientKwargs) (ht : truthy pu = true)
    (hs : w.socks_available = true) (hns : isSocksUrl (pu.getD "") = false) :
    applySocksConfig w pu k = ({ k with proxies := some (pu.getD "") }, []) := by
  simp [applySocksConfig, ht, hs, hns]

/-- A truthy explicit `proxy` argument short-circuits environment resolution. -/
lemma effective_proxy_of_explicit (w : World) (a : GetClientArgs)
    (h : truthy a.proxy = true) : effective_proxy_url w a = a.proxy := by
  simp [effective_proxy_url, h]

/-- The built client's `client_kwargs`, spelled out. -/
lemma build_client_kwargs (w : World) (s : PoolState) (a : GetClientArgs) :
    (build_client w s a).2.1.kwargs =
      updateKwargs (applyExplicitHttpOverride a.proxy (effective_proxy_url w a)
        (applySocksConfig w (effective_proxy_url w a)
          (baseClientKwargs a.timeout a.verify_ssl)).1).1 a.kwargs := rfl

/-- The warnings emitted while building a client, spelled out. -/
lemma build_client_logs (w : World) (s : PoolState) (a : GetClientArgs) :
    (build_client w s a).2.2 =
      (applySocksConfig w (effective_proxy_url w a)
        (baseClientKwargs a.timeout a.verify_ssl)).2 ++
      (applyExplicitHttpOverride a.proxy (effective_proxy_url w a)
        (applySocksConfig w (effective_proxy_url w a)
          (baseClientKwargs a.timeout a.verify_ssl)).1).2 := rfl

/-- After a call that built a new client, an identical follow-up call
returns that same client. -/
lemma get_client_after_build (w : World) (s : PoolState) (a : GetClientArgs)
    (h : get_client w s a = build_client w (check_loop_change w s).1 a) :
    (get_client w (get_client w s a).1 a).2.1 = (get_client w s a).2.1 := by
  have hst : check_loop_change w (get_client w s a).1 =
      ((get_client w s a).1, false) := by
    apply check_loop_change_stable w s
    rw [h, build_client_loop_id]
  have hlk : (check_loop_change w (get_client w s a).1).1.clients.lookup
      (cacheKey a.base_url a.provider) = some (get_client w s a).2.1 := by
    rw [hst]
    rw [h]
    exact build_client_lookup w (check_loop_change w s).1 a
  have hopen : (get_client w s a).2.1.is_closed = false := by
    rw [h]
    exact build_client_open w (check_loop_change w s).1 a
  rw [get_client_cached w (get_client w s a).1 a _ hlk hopen]

/-- After a call that hit the cache, an identical follow-up call returns
that same client. -/
lemma get_client_after_cached (w : World) (s : PoolState) (a : GetClientArgs)
    (c : Client)
    (h : get_client w s a = ((check_loop_change w s).1, c, []))
    (hopen : c.is_closed = false)
    (hl : (check_loop_change w s).1.clients.lookup
      (cacheKey a.base_url a.provider) = some c) :
    (get_client w (get_client w s a).1 a).2.1 = (get_client w s a).2.1 := by
  have hst : check_loop_change w (get_client w s a).1 =
      ((get_client w s a).1, false) := by
    apply check_loop_change_stable w s
    rw [h]
  have hlk : (check_loop_change w (get_client w s a).1).1.clients.lookup
      (cacheKey a.base_url a.provider) = some c := by
    rw [hst, h]
    exact hl
  rw [get_client_cached w (get_client w s a).1 a c hlk hopen, h]

/-- Claim C10: `get_http_proxy_for_trust_env` returns `None` for every
environment configuration — whether or not a proxy URL is resolved, it never
returns a proxy dictionary. -/
theorem c10_trust_env_dict_always_none (env : Env) :
    get_http_proxy_for_trust_env env = none := by
  unfold get_http_proxy_for_trust_env
  cases get_socks5_proxy_url env <;> rfl

/-- Claim C6: the proxy resolver returns no proxy when the enable flag is
explicitly `'false'` regardless of the URL; returns no proxy when the flag is
explicitly `'true'` but the URL is empty; and when the flag is unset, returns
the (stripped) proxy URL exactly when it is non-empty. -/
theorem c6_proxy_resolution_policy (env : Env) :
    (env.proxy_enabled = some "false" → get_socks5_proxy_url env = none) ∧
    (env.proxy_enabled = some "true" →
      strIsEmpty (trimStr (env.socks5_proxy_url.getD "")) = true →
      get_socks5_proxy_url env = none) ∧
    (env.proxy_enabled = none →
      get_socks5_proxy_url env =
        (if strIsEmpty (trimStr (env.socks5_proxy_url.getD "")) then none
         else some (trimStr (env.socks5_proxy_url.getD "")))) := by
  have hf : ((("true" : String)) = "false") = False := eq_false (by decide)
  have hg : ((("" : String)) = "false") = False := eq_false (by decide)
  have hh : ((("" : String)) = "true") = False := eq_false (by decide)
  refine ⟨fun h => ?_, fun h hu => ?_, fun h => ?_⟩
  · simp [get_socks5_proxy_url, h, show toLowerStr "false" = "false" from rfl]
  · simp [get_socks5_proxy_url, h, hu, hf,
      show toLowerStr "true" = "true" from rfl]
  · by_cases hx : strIsEmpty (trimStr (env.socks5_proxy_url.getD "")) = true
    · simp [get_socks5_proxy_url, h, hx, hg, hh,
        show toLowerStr "" = "" from rfl, show strIsEmpty "" = true from rfl]
    · simp [get_socks5_proxy_url, h, hg, hh,
        show toLowerStr "" = "" from rfl, show strIsEmpty "" = true from rfl,
        Bool.of_not_eq_true hx]

/-- Witness for C6 at concrete environments: disabled flag with a URL
present, enabled flag with an all-whitespace URL, and unset flag with a
non-empty and with an absent URL. -/
theorem c6_proxy_resolution_policy_witness :
    get_socks5_proxy_url
      { proxy_enabled := some "false", socks5_proxy_url := some "socks5://u" } =
      none ∧
    get_socks5_proxy_url
      { proxy_enabled := some "true", socks5_proxy_url := some "  " } = none ∧
    get_socks5_proxy_url
      { proxy_enabled := none, socks5_proxy_url := some "socks5://u" } =
      some "socks5://u" ∧
    get_socks5_proxy_url { proxy_enabled := none, socks5_proxy_url := none } =
      none := by
  refine ⟨?_, ?_, ?_, ?_⟩
  · exact (c6_proxy_resolution_policy _).1 rfl
  · exact (c6_proxy_resolution_policy _).2.1 rfl (by decide)
  · have h := (c6_proxy_resolution_policy
      { proxy_enabled := none, socks5_proxy_url := some "socks5://u" }).2.2 rfl
    rw [h]
    decide
  · have h := (c6_proxy_resolution_policy
      { proxy_enabled := none, socks5_proxy_url := none }).2.2 rfl
    rw [h]
    decide

/-- Claim C7, corrected: `handle_error` produces
`{ success := false, error := <formatted message> }` from the external
formatter keyed by provider identity whenever the formatter succeeds; but the
source wraps the formatting call in no `try/except`, so a formatter failure
propagates out of `handle_error` unchanged instead of degrading to a generic
message. -/
theorem c7_handle_error_contract {α : Type}
    (format_api_error : α → String → Except String String) (error : α)
    (provider : String) :
    (∀ msg, format_api_error error provider = Except.ok msg →
      handle_error format_api_error error provider =
        Except.ok { success := false, error := msg }) ∧
    (∀ e, format_api_error error provider = Except.error e →
      handle_error format_api_error error provider = Except.error e) := by
  constructor <;> intro x hx <;> unfold handle_error <;> rw [hx]

/-- Counterexample to C7 as stated: with a formatter that itself fails,
`handle_error` raises (propagates the failure) instead of returning a
`success = false` response. -/
theorem c7_handle_error_counterexample :
    handle_error failingFormatter 0 "llm" =
      Except.error "formatter blew up" := rfl

/-- Witness for C7 (corrected) at a concrete succeeding formatter. -/
theorem c7_handle_error_witness :
    handle_error okFormatter 0 "llm" =
      Except.ok { success := false, error := "formatted message" } :=
  (c7_handle_error_contract okFormatter 0 "llm").1 "formatted message" rfl

/-- Claim C8: `close_all` attempts a guarded close of every cached handle,
swallows any per-handle close failure (it never surfaces an exception),
leaves the cache empty afterward, is safe on an empty cache (the statement
quantifies over every pool state, the empty one included), and a subsequent
`get_client` call creates a fresh handle distinct from every pre-shutdown
handle. -/
theorem c8_close_all_drains (close_fails : Client → Bool) (s : PoolState)
    (w : World) (a : GetClientArgs)
    (hinv : ∀ p ∈ s.clients, p.2.id < s.next_id) :
    close_all close_fails s = Except.ok { s with clients := [] } ∧
    (get_client w { s with clients := [] } a).2.1.id = s.next_id ∧
    ∀ p ∈ s.clients, p.2 ≠ (get_client w { s with clients := [] } a).2.1 := by
  have hok : close_all close_fails s = Except.ok { s with clients := [] } := by
    unfold close_all
    rw [close_list_ok]
    rfl
  have hlk : (check_loop_change w { s with clients := [] }).1.clients.lookup
      (cacheKey a.base_url a.provider) = none :=
    check_lookup_none w { s with clients := [] } _ rfl
  have hb := get_client_of_lookup_none w { s with clients := [] } a hlk
  have hid : (get_client w { s with clients := [] } a).2.1.id = s.next_id := by
    rw [hb, build_client_id, check_loop_change_next_id]
  refine ⟨hok, hid, fun p hp heq => ?_⟩
  have hlt := hinv p hp
  rw [heq, hid] at hlt
  exact lt_irrefl _ hlt

/-- Witness for C8: a one-entry pool whose close always fails still drains,
and the follow-up `get_client` returns a handle that is not the pre-shutdown
one. -/
theorem c8_close_all_drains_witness :
    close_all (fun _ => true) exPool = Except.ok { exPool with clients := [] } ∧
    (get_client exWorld { exPool with clients := [] } exArgs).2.1.id =
      exPool.next_id ∧
    exClient ≠ (get_client exWorld { exPool with clients := [] } exArgs).2.1 :=
  ⟨(c8_close_all_drains (fun _ => true) exPool exWorld exArgs (by decide)).1,
    (c8_close_all_drains (fun _ => true) exPool exWorld exArgs (by decide)).2.1,
    (c8_close_all_drains (fun _ => true) exPool exWorld exArgs
      (by decide)).2.2 ("k", exClient) (by decide)⟩

/-- Claim C1: context-change detection runs before every cache lookup in
`get_client`.  On a mismatch between the running loop and the recorded loop
id, every cached handle is discarded (no graceful close) and the new loop id
is recorded, so the next `get_client` call returns a handle distinct from
every one cached before the change; with no running loop, no invalidation
occurs. -/
theorem c1_context_change_invalidation (w : World) (s : PoolState)
    (a : GetClientArgs) (hinv : ∀ p ∈ s.clients, p.2.id < s.next_id) :
    (∀ cur lid, w.running_loop = some cur → s.loop_id = some lid → lid ≠ cur →
      check_loop_change w s =
        ({ s with loop_id := some cur, clients := [] }, true) ∧
      (get_client w s a).2.1.id = s.next_id ∧
      ∀ p ∈ s.clients, p.2 ≠ (get_client w s a).2.1) ∧
    (w.running_loop = none → check_loop_change w s = (s, false)) := by
  refine ⟨fun cur lid hw hs hne => ?_, fun h => check_loop_change_no_loop w s h⟩
  have hchk : check_loop_change w s =
      ({ s with loop_id := some cur, clients := [] }, true) := by
    unfold check_loop_change
    rw [hw, hs]
    simp [hne]
  have hlk : (check_loop_change w s).1.clients.lookup
      (cacheKey a.base_url a.provider) = none := by
    rw [hchk]
    rfl
  have hb := get_client_of_lookup_none w s a hlk
  have hid : (get_client w s a).2.1.id = s.next_id := by
    rw [hb, build_client_id, check_loop_change_next_id]
  refine ⟨hchk, hid, fun p hp heq => ?_⟩
  have hlt := hinv p hp
  rw [heq, hid] at hlt
  exact lt_irrefl _ hlt

/-- Witness for C1: a pool created under loop `1` queried from loop `2`
drops its cached handle, records loop `2`, and hands out a fresh handle;
queried with no running loop, nothing is invalidated. -/
theorem c1_context_change_invalidation_witness :
    check_loop_change { exWorld with running_loop := some 2 } exPool =
      ({ exPool with loop_id := some 2, clients := [] }, true) ∧
    (get_client { exWorld with running_loop := some 2 } exPool exArgs).2.1.id =
      exPool.next_id ∧
    exClient ≠
      (get_client { exWorld with running_loop := some 2 } exPool exArgs).2.1 ∧
    check_loop_change { exWorld with running_loop := none } exPool =
      (exPool, false) := by
  have h := (c1_context_change_invalidation
    { exWorld with running_loop := some 2 } exPool exArgs (by decide)).1
    2 1 rfl rfl (by decide)
  have h2 := (c1_context_change_invalidation
    { exWorld with running_loop := none } exPool exArgs (by decide)).2 rfl
  exact ⟨h.1, h.2.1, h.2.2 ("k", exClient) (by decide), h2⟩

/-- Claim C2: `get_client` returns the cached handle exactly when one exists
under the cache key, it is open, and the execution context is unchanged;
in every other case it builds a fresh handle (distinct from every cached
one) and caches it under the key.  In particular two consecutive calls with
the same arguments return the identity-same handle. -/
theorem c2_get_client_cache_contract (w : World) (s : PoolState)
    (a : GetClientArgs) (hinv : ∀ p ∈ s.clients, p.2.id < s.next_id) :
    ((loopUnchanged w s = true ∧
        ∃ c₀, s.clients.lookup (cacheKey a.base_url a.provider) = some c₀ ∧
          c₀.is_closed = false) →
      s.clients.lookup (cacheKey a.base_url a.provider) =
        some (get_client w s a).2.1) ∧
    (¬(loopUnchanged w s = true ∧
        ∃ c₀, s.clients.lookup (cacheKey a.base_url a.provider) = some c₀ ∧
          c₀.is_closed = false) →
      (get_client w s a).2.1.id = s.next_id ∧
      (get_client w s a).1.clients.lookup (cacheKey a.base_url a.provider) =
        some (get_client w s a).2.1 ∧
      ∀ p ∈ s.clients, p.2 ≠ (get_client w s a).2.1) ∧
    (get_client w (get_client w s a).1 a).2.1 = (get_client w s a).2.1 := by
  have hbuild : get_client w s a =
        build_client w (check_loop_change w s).1 a →
      (get_client w s a).2.1.id = s.next_id ∧
      (get_client w s a).1.clients.lookup (cacheKey a.base_url a.provider) =
        some (get_client w s a).2.1 ∧
      ∀ p ∈ s.clients, p.2 ≠ (get_client w s a).2.1 := by
    intro hb
    have hid : (get_client w s a).2.1.id = s.next_id := by
      rw [hb, build_client_id, check_loop_change_next_id]
    refine ⟨hid, ?_, fun p hp heq => ?_⟩
    · rw [hb]
      exact build_client_lookup w (check_loop_change w s).1 a
    · have hlt := hinv p hp
      rw [heq, hid] at hlt
      exact lt_irrefl _ hlt
  refine ⟨?_, ?_, ?_⟩
  · rintro ⟨hu, c₀, hl, hopen⟩
    have hlk : (check_loop_change w s).1.clients.lookup
        (cacheKey a.base_url a.provider) = some c₀ := by
      rw [check_loop_change_clients_unchanged w s hu]
      exact hl
    rw [get_client_cached w s a c₀ hlk hopen]
    exact hl
  · intro hn
    by_cases hu : loopUnchanged w s = true
    · cases hl : s.clients.lookup (cacheKey a.base_url a.provider) with
      | none =>
        exact hbuild (get_client_of_lookup_none w s a
          (by rw [check_loop_change_clients_unchanged w s hu]; exact hl))
      | some c₀ =>
        have hcl : c₀.is_closed = true := by
          by_contra hq
          exact hn ⟨hu, c₀, hl, Bool.of_not_eq_true hq⟩
        exact hbuild (get_client_of_closed w s a c₀
          (by rw [check_loop_change_clients_unchanged w s hu]; exact hl) hcl)
    · have hcl : (check_loop_change w s).1.clients = [] :=
        check_loop_change_clients_changed w s (Bool.of_not_eq_true hu)
      exact hbuild (get_client_of_lookup_none w s a (by rw [hcl]; rfl))
  · cases hl : (check_loop_change w s).1.clients.lookup
        (cacheKey a.base_url a.provider) with
    | none =>
      exact get_client_after_build w s a (get_client_of_lookup_none w s a hl)
    | some c₀ =>
      by_cases hc : c₀.is_closed = true
      · exact get_client_after_build w s a (get_client_of_closed w s a c₀ hl hc)
      · have hopen : c₀.is_closed = false := Bool.of_not_eq_true hc
        exact get_client_after_cached w s a c₀
          (get_client_cached w s a c₀ hl hopen) hopen hl

/-- Witness for C2: in an unchanged context the cached open handle is
returned, and a repeated call returns the identity-same handle. -/
theorem c2_get_client_cache_contract_witness :
    exPool.clients.lookup "k" = some (get_client exWorld exPool exArgs).2.1 ∧
    (get_client exWorld (get_client exWorld exPool exArgs).1 exArgs).2.1 =
      (get_client exWorld exPool exArgs).2.1 := by
  have h := c2_get_client_cache_contract exWorld exPool exArgs (by decide)
  exact ⟨h.1 ⟨by decide, exClient, by decide, by decide⟩, h.2.2⟩

/-- Counterexample to C3 as stated: with `timeout=30` the write timeout of a
newly built handle is the hard-coded `60`, not the caller's `timeout`. -/
theorem c3_write_timeout_counterexample :
    (get_client exWorld emptyPool c3Args).2.1.kwargs.timeout.write = 60 ∧
    ¬(get_client exWorld emptyPool c3Args).2.1.kwargs.timeout.write =
      c3Args.timeout := by
  constructor
  · decide
  · decide

/-- Claim C3, corrected: every handle newly built by `get_client` (absent
overriding `extraOptions`) gets pool limits of at most 20 connections, at
most 10 keep-alive connections and 60-second keep-alive expiry; timeouts of
10 seconds for connect, the caller's `timeout` for read and overall (pool),
and a fixed 60 seconds — not the caller's `timeout` — for write; the
caller's TLS-verification flag; and redirect-following enabled. -/
theorem c3_new_client_configuration (w : World) (s : PoolState)
    (a : GetClientArgs)
    (hlk : s.clients.lookup (cacheKey a.base_url a.provider) = none)
    (hkw : a.kwargs = {}) :
    (get_client w s a).2.1.kwargs.timeout =
      { pool := a.timeout, connect := 10, read := a.timeout, write := 60 } ∧
    (get_client w s a).2.1.kwargs.verify = a.verify_ssl ∧
    (get_client w s a).2.1.kwargs.follow_redirects = true ∧
    (get_client w s a).2.1.kwargs.limits =
      { max_keepalive_connections := 10, max_connections := 20,
        keepalive_expiry := 60 } := by
  have hb := get_client_of_lookup_none w s a (check_lookup_none w s _ hlk)
  rw [hb, build_client_kwargs, hkw, updateKwargs_default]
  obtain ⟨t1, v1, f1, -, -, l1, -⟩ := applyExplicitHttpOverride_plain_fields
    a.proxy (effective_proxy_url w a)
    (applySocksConfig w (effective_proxy_url w a)
      (baseClientKwargs a.timeout a.verify_ssl)).1
  obtain ⟨t2, v2, f2, -, -, l2⟩ := applySocksConfig_plain_fields
    w (effective_proxy_url w a) (baseClientKwargs a.timeout a.verify_ssl)
  refine ⟨?_, ?_, ?_, ?_⟩
  · rw [t1, t2]
    rfl
  · rw [v1, v2]
    rfl
  · rw [f1, f2]
    rfl
  · rw [l1, l2]
    rfl

/-- Witness for C3 (corrected) at the `timeout=30` call on an empty pool. -/
theorem c3_new_client_configuration_witness :
    (get_client exWorld emptyPool c3Args).2.1.kwargs.timeout =
      { pool := 30, connect := 10, read := 30, write := 60 } ∧
    (get_client exWorld emptyPool c3Args).2.1.kwargs.verify = true ∧
    (get_client exWorld emptyPool c3Args).2.1.kwargs.follow_redirects = true ∧
    (get_client exWorld emptyPool c3Args).2.1.kwargs.limits =
      { max_keepalive_connections := 10, max_connections := 20,
        keepalive_expiry := 60 } :=
  c3_new_client_configuration exWorld emptyPool c3Args rfl rfl

/-- Counterexample to C4 as stated: with SOCKS transport support unavailable
and the environment resolving the non-SOCKS proxy `http://b`, the built
handle gets no proxy at all — the URL is not passed through. -/
theorem c4_plain_proxy_counterexample :
    effective_proxy_url c4NoSocksWorld exArgs = some "http://b" ∧
    isSocksUrl "http://b" = false ∧
    (get_client c4NoSocksWorld emptyPool exArgs).2.1.kwargs.proxies = none ∧
    (get_client c4NoSocksWorld emptyPool exArgs).2.1.kwargs.transport =
      none := by
  refine ⟨by decide, by decide, by decide, by decide⟩

/-- Claim C4, corrected: when `get_client` builds a handle and the effective
proxy is a non-empty non-SOCKS URL, that URL is passed through as the
conventional `proxies` setting whenever SOCKS transport support is
available; when SOCKS support is unavailable and the proxy came from the
environment (no explicit argument), the URL is dropped — only warnings are
logged and the handle is built with no proxy. -/
theorem c4_plain_proxy_passthrough (w : World) (s : PoolState)
    (a : GetClientArgs) (u : String)
    (hlk : s.clients.lookup (cacheKey a.base_url a.provider) = none)
    (hkw : a.kwargs = {})
    (hu : effective_proxy_url w a = some u)
    (hne : strIsEmpty u = false)
    (hns : isSocksUrl u = false) :
    (w.socks_available = true →
      (get_client w s a).2.1.kwargs.proxies = some u) ∧
    (w.socks_available = false → truthy a.proxy = false →
      (get_client w s a).2.1.kwargs.proxies = none ∧
      LogMsg.socksUnavailable u ∈ (get_client w s a).2.2) := by
  have hb := get_client_of_lookup_none w s a (check_lookup_none w s _ hlk)
  have htr : truthy (effective_proxy_url w a) = true := by
    rw [hu]
    simp [truthy, hne]
  constructor
  · intro hav
    have h1 := applySocksConfig_plain_proxy w (effective_proxy_url w a)
      (baseClientKwargs a.timeout a.verify_ssl) htr hav
      (by rw [hu]; exact hns)
    by_cases hov : (truthy a.proxy && truthy (effective_proxy_url w a) &&
        isHttpUrl ((effective_proxy_url w a).getD "")) = true
    · have hover := applyExplicitHttpOverride_fires a.proxy
        (effective_proxy_url w a)
        (applySocksConfig w (effective_proxy_url w a)
          (baseClientKwargs a.timeout a.verify_ssl)).1 hov
      have hta : truthy a.proxy = true := by
        have h' := hov
        simp only [Bool.and_eq_true] at h'
        exact h'.1.1
      have hpa : a.proxy = some u := by
        rw [← effective_proxy_of_explicit w a hta]
        exact hu
      rw [hb, build_client_kwargs, hkw, updateKwargs_default, hover]
      simp [hpa]
    · have hover := applyExplicitHttpOverride_skips a.proxy
        (effective_proxy_url w a)
        (applySocksConfig w (effective_proxy_url w a)
          (baseClientKwargs a.timeout a.verify_ssl)).1
        (Bool.of_not_eq_true hov)
      rw [hb, build_client_kwargs, hkw, updateKwargs_default, hover, h1]
      simp [hu]
  · intro hnav hta
    have h1 := applySocksConfig_unavailable w (effective_proxy_url w a)
      (baseClientKwargs a.timeout a.verify_ssl) htr hnav
    have hover := applyExplicitHttpOverride_skips a.proxy
      (effective_proxy_url w a)
      (applySocksConfig w (effective_proxy_url w a)
        (baseClientKwargs a.timeout a.verify_ssl)).1
      (by simp [hta])
    constructor
    · rw [hb, build_client_kwargs, hkw, updateKwargs_default, hover, h1]
      rfl
    · rw [hb, build_client_logs, hover, h1]
      simp [hu]

/-- Witness for C4 (corrected): with SOCKS support present the resolved
`http://b` is passed through; with it absent the proxy is dropped and the
warning is emitted. -/
theorem c4_plain_proxy_passthrough_witness :
    (get_client c4SocksWorld emptyPool exArgs).2.1.kwargs.proxies =
      some "http://b" ∧
    (get_client c4NoSocksWorld emptyPool exArgs).2.1.kwargs.proxies = none ∧
    LogMsg.socksUnavailable "http://b" ∈
      (get_client c4NoSocksWorld emptyPool exArgs).2.2 := by
  have h1 := (c4_plain_proxy_passthrough c4SocksWorld emptyPool exArgs
    "http://b" rfl rfl (by decide) (by decide) (by decide)).1 rfl
  have h2 := (c4_plain_proxy_passthrough c4NoSocksWorld emptyPool exArgs
    "http://b" rfl rfl (by decide) (by decide) (by decide)).2 rfl rfl
  exact ⟨h1, h2.1, h2.2⟩

/-- Counterexample to C5 as stated: with an explicit `http://a` proxy while
environment resolution produces no value at all, the discard warning is
still logged — it is not logged "exactly when environment resolution also
produced a value". -/
theorem c5_override_warning_counterexample :
    get_socks5_proxy_url exWorld.env = none ∧
    (get_client exWorld emptyPool c5ProxyArgs).2.2 =
      [LogMsg.explicitHttpOverride "http://a" "http://a"] ∧
    (get_client exWorld emptyPool c5ProxyArgs).2.1.kwargs.proxies =
      some "http://a" := by
  refine ⟨by decide, by decide, by decide⟩

/-- Claim C5, corrected: an explicit non-empty `http://`/`https://` proxy
argument always wins — the built handle's `proxies` is the explicit value
(environment resolution is skipped entirely when an explicit proxy is
supplied) — and the discard warning is logged on every such build,
regardless of whether environment resolution would have produced a value. -/
theorem c5_explicit_http_proxy_wins (w : World) (s : PoolState)
    (a : GetClientArgs) (p : String)
    (hp : a.proxy = some p) (hne : strIsEmpty p = false)
    (hh : isHttpUrl p = true)
    (hlk : s.clients.lookup (cacheKey a.base_url a.provider) = none)
    (hkw : a.kwargs = {}) :
    (get_client w s a).2.1.kwargs.proxies = some p ∧
    LogMsg.explicitHttpOverride p p ∈ (get_client w s a).2.2 := by
  have hb := get_client_of_lookup_none w s a (check_lookup_none w s _ hlk)
  have hta : truthy a.proxy = true := by
    rw [hp]
    simp [truthy, hne]
  have heff : effective_proxy_url w a = some p := by
    rw [effective_proxy_of_explicit w a hta, hp]
  have htp : truthy (some p) = true := by
    simp [truthy, hne]
  have hov : (truthy a.proxy && truthy (effective_proxy_url w a) &&
      isHttpUrl ((effective_proxy_url w a).getD "")) = true := by
    rw [heff, hta, htp]
    simp [hh]
  have hover := applyExplicitHttpOverride_fires a.proxy
    (effective_proxy_url w a)
    (applySocksConfig w (effective_proxy_url w a)
      (baseClientKwargs a.timeout a.verify_ssl)).1 hov
  constructor
  · rw [hb, build_client_kwargs, hkw, updateKwargs_default, hover]
    simp [hp]
  · rw [hb, build_client_logs, hover]
    simp [heff, hp]

/-- Witness for C5 (corrected): explicit `http://a` wins even in a world
whose environment would resolve `http://b`, and the warning is emitted. -/
theorem c5_explicit_http_proxy_wins_witness :
    (get_client c4NoSocksWorld emptyPool c5ProxyArgs).2.1.kwargs.proxies =
      some "http://a" ∧
    LogMsg.explicitHttpOverride "http://a" "http://a" ∈
      (get_client c4NoSocksWorld emptyPool c5ProxyArgs).2.2 :=
  c5_explicit_http_proxy_wins c4NoSocksWorld emptyPool c5ProxyArgs "http://a"
    rfl (by decide) (by decide) rfl rfl

/-- Counterexample to C9 as stated: a caller overriding `trust_env` through
`**kwargs` gets a handle with ambient-proxy pickup enabled, so it does not
hold "for every call". -/
theorem c9_trust_env_counterexample :
    (get_client exWorld emptyPool c9Args).2.1.kwargs.trust_env = true := by
  decide

/-- Claim C9, corrected: every handle built by `get_client` has automatic
pickup of ambient proxy environment variables disabled (`trust_env = false`)
unless the caller explicitly overrides `trust_env` through `**kwargs`. -/
theorem c9_trust_env_disabled (w : World) (s : PoolState) (a : GetClientArgs)
    (hlk : s.clients.lookup (cacheKey a.base_url a.provider) = none)
    (hkw : a.kwargs.trust_env = none) :
    (get_client w s a).2.1.kwargs.trust_env = false := by
  have hb := get_client_of_lookup_none w s a (check_lookup_none w s _ hlk)
  rw [hb, build_client_kwargs]
  simp only [updateKwargs, hkw, Option.getD_none]
  obtain ⟨-, -, -, -, te1, -, -⟩ := applyExplicitHttpOverride_plain_fields
    a.proxy (effective_proxy_url w a)
    (applySocksConfig w (effective_proxy_url w a)
      (baseClientKwargs a.timeout a.verify_ssl)).1
  obtain ⟨-, -, -, -, te2, -⟩ := applySocksConfig_plain_fields
    w (effective_proxy_url w a) (baseClientKwargs a.timeout a.verify_ssl)
  rw [te1, te2]
  rfl

/-- Witness for C9 (corrected) at a concrete call with no override. -/
theorem c9_trust_env_disabled_witness :
    (get_client exWorld emptyPool exArgs).2.1.kwargs.trust_env = false :=
  c9_trust_env_disabled exWorld emptyPool exArgs rfl rfl
